import Mathlib

/-!
Verification of the tap-gesture recognizer in
`src/browser/eventPlugins/TapEventPlugin.js`.

The recognizer is a stateful filter over raw pointer/touch lifecycle
events.  We embed it shallowly: the module-level mutable variables
(`startCoords`, `lastStartTouchEvent`, `lastEndTouchEvent`, `Time`)
become a `PluginState` record threaded explicitly through
`extractEvents`, and the external collaborators (viewport metrics,
touch extraction, event classification) become explicit parameters or
fields of the raw-event record.

Numeric conventions of the embedding:
* JavaScript numbers are modelled as `Int` (all inputs of interest are
  integral; no overflow is possible at these magnitudes).
* The source initialises `startCoords`, `lastStartTouchEvent` and
  `lastEndTouchEvent` to `null` and later overwrites them with numbers;
  the only uses are truthiness tests (`x && y`,
  `lastStartTouchEvent && ...`) and arithmetic in contexts guarded by
  those tests.  Since `null` and `0` are both falsy and `null` coerces
  to `0` in arithmetic, we encode `null` as `0 : Int`; the truthiness
  tests become `≠ 0` tests, exactly the discrimination the source makes.
* The source compares the Euclidean distance
  `Math.pow(dx*dx + dy*dy, 0.5)` against the nonnegative constant
  `tapMoveThreshold`.  For nonnegative reals, `Real.sqrt s < t ↔ s < t²`
  and `Real.sqrt s ≥ t ↔ s ≥ t²`, so the embedding keeps the squared
  distance and compares it against the squared threshold; this is the
  same decision at every input and keeps the development computable.
-/

/-- Raw top-level event kinds from `EventConstants.topLevelTypes` that the
plugin mentions (its two dependency lists). -/
inductive TopLevelType where
  | topMouseDown
  | topMouseMove
  | topMouseUp
  | topTouchCancel
  | topTouchEnd
  | topTouchStart
  | topTouchMove
deriving DecidableEq, Repr

/-- Modelled from the spec: `EventPluginUtils.isStartish`, the host
collaborator's classification capability — gesture-beginning kinds
(pointer/touch down) are start-class.  (`EventPluginUtils` is an external
collaborator, not part of this repository's source.) -/
def isStartish (t : TopLevelType) : Bool :=
  match t with
  | .topMouseDown => true
  | .topTouchStart => true
  | _ => false

/-- Modelled from the spec: `EventPluginUtils.isEndish`, the host
collaborator's classification capability — gesture-ending kinds
(pointer/touch up, cancel) are end-class.  Mutually exclusive with
`isStartish`. -/
def isEndish (t : TopLevelType) : Bool :=
  match t with
  | .topMouseUp => true
  | .topTouchEnd => true
  | .topTouchCancel => true
  | _ => false

/-- Number of pixels tolerated between a `touchStart` and `touchEnd`
for the gesture to still be a tap (`var tapMoveThreshold = 10`). -/
def tapMoveThreshold : Int := 10

/-- Window in ms within which a same-class event is treated as a
duplicate synthetic mouse event (`var ignoreMouseThreshold = 350`). -/
def ignoreMouseThreshold : Int := 350

/-- Maximum duration in ms for a start/end pair to still be a tap
(`var tapTimeThreshold = 2000`). -/
def tapTimeThreshold : Int := 2000

/-- A single touch point, as returned by the host's
`TouchEventUtils.extractSingleTouch` capability: page-space coordinates. -/
structure Touch where
  pageX : Int
  pageY : Int
deriving DecidableEq, Repr

/-- A raw (native) event as the recognizer consumes it.
`singleTouch` is the result of `TouchEventUtils.extractSingleTouch`
(`some` exactly when the event carries exactly one active touch point);
`pageX`/`pageY` are `some` exactly when the field is present on the
event (`axis.page in nativeEvent`); `clientX`/`clientY` and `timeStamp`
are always present. -/
structure NativeEvent where
  singleTouch : Option Touch
  pageX : Option Int
  pageY : Option Int
  clientX : Int
  clientY : Int
  timeStamp : Int
deriving DecidableEq, Repr

/-- The host's `ViewportMetrics` collaborator: current viewport scroll
offsets along each axis. -/
structure ViewportMetrics where
  currentPageScrollLeft : Int
  currentPageScrollTop : Int
deriving DecidableEq, Repr

/-- An axis descriptor, as in the source's `Axis` table: how to read the
page coordinate, the client coordinate and the viewport scroll offset
along one axis.  The source stores field NAMES (`'pageX'`, …) and
indexes objects with them; the embedding stores the corresponding
projections. -/
structure AxisDesc where
  page : NativeEvent → Option Int
  client : NativeEvent → Int
  envScroll : ViewportMetrics → Int
  touchPage : Touch → Int

/-- `Axis.x = {page: 'pageX', client: 'clientX', envScroll: 'currentPageScrollLeft'}`. -/
def Axis.x : AxisDesc :=
  ⟨NativeEvent.pageX, NativeEvent.clientX, ViewportMetrics.currentPageScrollLeft, Touch.pageX⟩

/-- `Axis.y = {page: 'pageY', client: 'clientY', envScroll: 'currentPageScrollTop'}`. -/
def Axis.y : AxisDesc :=
  ⟨NativeEvent.pageY, NativeEvent.clientY, ViewportMetrics.currentPageScrollTop, Touch.pageY⟩

/-- `getAxisCoordOfEvent(axis, nativeEvent)`: the page-space coordinate
of the event along `axis`.  A present single touch wins; else the
event's own page field if present; else client coordinate plus the
current viewport scroll offset. -/
def getAxisCoordOfEvent (vm : ViewportMetrics) (axis : AxisDesc) (nativeEvent : NativeEvent) : Int :=
  match nativeEvent.singleTouch with
  | some singleTouch => axis.touchPage singleTouch
  | none =>
    match axis.page nativeEvent with
    | some p => p
    | none => axis.client nativeEvent + axis.envScroll vm

/-- Gesture-origin coordinates (the source's `startCoords` object). -/
structure Coords where
  x : Int
  y : Int
deriving DecidableEq, Repr

/-- `getDistance(coords, nativeEvent)`, kept in squared form: the source
returns `pow(pow(pageX - coords.x, 2) + pow(pageY - coords.y, 2), 0.5)`
and only ever compares the result with `tapMoveThreshold`; we return the
radicand and compare with the squared threshold (see the file header). -/
def getDistanceSq (vm : ViewportMetrics) (coords : Coords) (nativeEvent : NativeEvent) : Int :=
  let pageX := getAxisCoordOfEvent vm Axis.x nativeEvent
  let pageY := getAxisCoordOfEvent vm Axis.y nativeEvent
  (pageX - coords.x) * (pageX - coords.x) + (pageY - coords.y) * (pageY - coords.y)

/-- `getTime(nativeEvent)`: the raw event's own timestamp. -/
def getTime (nativeEvent : NativeEvent) : Int :=
  nativeEvent.timeStamp

/-- The source's module-level `Time` object (`{start: 0, end: 0}`). -/
structure TimeRecord where
  start : Int
  «end» : Int
deriving DecidableEq, Repr

/-- The recognizer's module-level mutable state: `startCoords`,
`lastStartTouchEvent`, `lastEndTouchEvent` and `Time` (with `0`
encoding the initial `null` of the first three, see the file header). -/
structure PluginState where
  startCoords : Coords
  lastStartTouchEvent : Int
  lastEndTouchEvent : Int
  Time : TimeRecord
deriving DecidableEq, Repr

/-- The state at module load:
`startCoords = {x: null, y: null}`, `lastStartTouchEvent = null`,
`lastEndTouchEvent = null`, `Time = {start: 0, end: 0}`. -/
def initialState : PluginState :=
  { startCoords := ⟨0, 0⟩
    lastStartTouchEvent := 0
    lastEndTouchEvent := 0
    Time := ⟨0, 0⟩ }

/-- `getDuration()` = `Time.end - Time.start` on the current state. -/
def getDuration (st : PluginState) : Int :=
  st.Time.«end» - st.Time.start

/-- The three semantic event descriptors of `eventTypes`. -/
inductive TapEventType where
  | touchTap
  | touchTapStart
  | touchTapEnd
deriving DecidableEq, Repr

/-- A pooled synthetic UI event as the recognizer produces it:
`SyntheticUIEvent.getPooled(eventType, topLevelTargetID, nativeEvent)`.
Only the descriptor identity, the target id and the native event are
recorded (construction itself is the external factory's job). -/
structure SyntheticUIEvent where
  eventType : TapEventType
  topLevelTargetID : String
  nativeEvent : NativeEvent
deriving DecidableEq, Repr

/-- What `extractEvents` returns: `null`, a bare synthetic event, or an
array of synthetic events (the end-class branch builds arrays of length
one or two). -/
inductive ExtractResult where
  | null
  | single (e : SyntheticUIEvent)
  | arr (es : List SyntheticUIEvent)
deriving DecidableEq, Repr

/-- The body of `extractEvents` after the mouse/touch dedup filter has
been passed (and `lastStartTouchEvent`/`lastEndTouchEvent` updated):
the move-abort branch, the start branch, and the end branch with its
trailing state reset. -/
def extractEventsAfterDedup (vm : ViewportMetrics) (st : PluginState)
    (topLevelType : TopLevelType) (topLevelTargetID : String)
    (nativeEvent : NativeEvent) : ExtractResult × PluginState :=
  if ¬ isStartish topLevelType ∧ ¬ isEndish topLevelType then
    -- move-class: abort when armed and moved at least the threshold
    if st.startCoords.x ≠ 0 ∧ st.startCoords.y ≠ 0 then
      if getDistanceSq vm st.startCoords nativeEvent ≥ tapMoveThreshold * tapMoveThreshold then
        (.single ⟨.touchTapEnd, topLevelTargetID, nativeEvent⟩,
         { st with startCoords := ⟨0, 0⟩ })
      else
        (.null, st)
    else
      (.null, st)
  else if isStartish topLevelType then
    -- start-class: arm the gesture, emit tap-start
    (.single ⟨.touchTapStart, topLevelTargetID, nativeEvent⟩,
     { st with
        Time := { st.Time with start := getTime nativeEvent }
        startCoords :=
          ⟨getAxisCoordOfEvent vm Axis.x nativeEvent,
           getAxisCoordOfEvent vm Axis.y nativeEvent⟩ })
  else
    -- end-class: emit tap-end, plus tap when quick and close; then reset
    let st1 : PluginState := { st with Time := { st.Time with «end» := getTime nativeEvent } }
    let event : List SyntheticUIEvent :=
      if getDuration st1 > tapTimeThreshold then
        [⟨.touchTapEnd, topLevelTargetID, nativeEvent⟩]
      else
        if getDistanceSq vm st1.startCoords nativeEvent < tapMoveThreshold * tapMoveThreshold then
          [⟨.touchTapEnd, topLevelTargetID, nativeEvent⟩,
           ⟨.touchTap, topLevelTargetID, nativeEvent⟩]
        else
          [⟨.touchTapEnd, topLevelTargetID, nativeEvent⟩]
    (.arr event,
     { st1 with startCoords := ⟨0, 0⟩, Time := ⟨0, 0⟩ })

/-- `TapEventPlugin.extractEvents`, as a function of the explicit state:
first the mouse/touch dedup filter (a start-class event within
`ignoreMouseThreshold` of the last accepted start-class timestamp is
dropped with no state change, symmetrically for end-class; an accepted
event records its timestamp), then the gesture logic. -/
def extractEvents (vm : ViewportMetrics) (st : PluginState)
    (topLevelType : TopLevelType) (topLevelTargetID : String)
    (nativeEvent : NativeEvent) : ExtractResult × PluginState :=
  if isStartish topLevelType then
    if st.lastStartTouchEvent ≠ 0 ∧
        nativeEvent.timeStamp - st.lastStartTouchEvent < ignoreMouseThreshold then
      (.null, st)
    else
      extractEventsAfterDedup vm { st with lastStartTouchEvent := nativeEvent.timeStamp }
        topLevelType topLevelTargetID nativeEvent
  else if isEndish topLevelType then
    if st.lastEndTouchEvent ≠ 0 ∧
        nativeEvent.timeStamp - st.lastEndTouchEvent < ignoreMouseThreshold then
      (.null, st)
    else
      extractEventsAfterDedup vm { st with lastEndTouchEvent := nativeEvent.timeStamp }
        topLevelType topLevelTargetID nativeEvent
  else
    extractEventsAfterDedup vm st topLevelType topLevelTargetID nativeEvent

/-- `mouseDependencies`. -/
def mouseDependencies : List TopLevelType :=
  [.topMouseDown, .topMouseMove, .topMouseUp]

/-- `touchDependencies`. -/
def touchDependencies : List TopLevelType :=
  [.topTouchCancel, .topTouchEnd, .topTouchStart, .topTouchMove]

/-- `isTouchDevice()` = `'ontouchstart' in window`, a host capability
probe; modelled as the boolean it reports. -/
def isTouchDevice (ontouchstartInWindow : Bool) : Bool :=
  ontouchstartInWindow

/-- The module-level `dependencies` variable: assigned only when
`EventPluginUtils.useTouchEvents` is set (touch kinds on a touch device,
mouse kinds otherwise); left `undefined` (`none`) when it is not. -/
def dependencies (useTouchEvents ontouchstartInWindow : Bool) : Option (List TopLevelType) :=
  if useTouchEvents then
    if isTouchDevice ontouchstartInWindow then
      some touchDependencies
    else
      some mouseDependencies
  else
    none

/-- A `phasedRegistrationNames` pair (bubble and capture listener names,
produced by `keyOf`). -/
structure PhasedRegistrationNames where
  bubbled : String
  captured : String
deriving DecidableEq, Repr

/-- One entry of the `eventTypes` table. -/
structure EventTypeConfig where
  phasedRegistrationNames : PhasedRegistrationNames
  dependencies : Option (List TopLevelType)
deriving DecidableEq, Repr

/-- The `eventTypes` table exposed by the plugin. -/
structure EventTypes where
  touchTap : EventTypeConfig
  touchTapStart : EventTypeConfig
  touchTapEnd : EventTypeConfig
deriving DecidableEq, Repr

/-- The `eventTypes` table as built at module load, as a function of the
host configuration (`EventPluginUtils.useTouchEvents` and the
`isTouchDevice()` probe) that fixes the shared `dependencies` variable. -/
def eventTypes (useTouchEvents ontouchstartInWindow : Bool) : EventTypes :=
  { touchTap :=
      ⟨⟨"onTap", "onTapCapture"⟩, dependencies useTouchEvents ontouchstartInWindow⟩
    touchTapStart :=
      ⟨⟨"onTapStart", "onTapStartCapture"⟩, dependencies useTouchEvents ontouchstartInWindow⟩
    touchTapEnd :=
      ⟨⟨"onTapEnd", "onTapEndCapture"⟩, dependencies useTouchEvents ontouchstartInWindow⟩ }

/-! ## Branch characterizations of `extractEvents`

Shared lemmas describing the recognizer's output and state update on
each class of raw event; the claim-level theorems below are corollaries. -/

/-- A start-class event within the dedup window of a nonzero last
accepted start timestamp is dropped with no state change. -/
theorem extractEvents_startish_dropped (vm : ViewportMetrics) (st : PluginState)
    (t : TopLevelType) (tid : String) (e : NativeEvent)
    (ht : isStartish t = true)
    (hd : st.lastStartTouchEvent ≠ 0 ∧
      e.timeStamp - st.lastStartTouchEvent < ignoreMouseThreshold) :
    extractEvents vm st t tid e = (.null, st) := by
  simp [extractEvents, ht, hd]

/-- An accepted start-class event records its timestamp in
`lastStartTouchEvent` and `Time.start`, captures the origin, and emits
a single tap-start. -/
theorem extractEvents_startish_accepted (vm : ViewportMetrics) (st : PluginState)
    (t : TopLevelType) (tid : String) (e : NativeEvent)
    (ht : isStartish t = true)
    (hd : ¬ (st.lastStartTouchEvent ≠ 0 ∧
      e.timeStamp - st.lastStartTouchEvent < ignoreMouseThreshold)) :
    extractEvents vm st t tid e =
      (.single ⟨.touchTapStart, tid, e⟩,
       { st with
          lastStartTouchEvent := e.timeStamp
          startCoords :=
            ⟨getAxisCoordOfEvent vm Axis.x e, getAxisCoordOfEvent vm Axis.y e⟩
          Time := { st.Time with start := getTime e } }) := by
  cases t <;> simp_all [extractEvents, extractEventsAfterDedup, isStartish, isEndish]

/-- An end-class event within the dedup window of a nonzero last
accepted end timestamp is dropped with no state change. -/
theorem extractEvents_endish_dropped (vm : ViewportMetrics) (st : PluginState)
    (t : TopLevelType) (tid : String) (e : NativeEvent)
    (ht : isEndish t = true)
    (hd : st.lastEndTouchEvent ≠ 0 ∧
      e.timeStamp - st.lastEndTouchEvent < ignoreMouseThreshold) :
    extractEvents vm st t tid e = (.null, st) := by
  cases t <;> simp_all [extractEvents, isStartish, isEndish]

/-- An accepted end-class event always emits an array headed by
tap-end, adds a tap exactly when the duration is within
`tapTimeThreshold` and the (squared) distance from the recorded origin
is below the (squared) threshold, and resets origin and clock. -/
theorem extractEvents_endish_accepted (vm : ViewportMetrics) (st : PluginState)
    (t : TopLevelType) (tid : String) (e : NativeEvent)
    (ht : isEndish t = true)
    (hd : ¬ (st.lastEndTouchEvent ≠ 0 ∧
      e.timeStamp - st.lastEndTouchEvent < ignoreMouseThreshold)) :
    extractEvents vm st t tid e =
      ((if e.timeStamp - st.Time.start > tapTimeThreshold then
          .arr [⟨.touchTapEnd, tid, e⟩]
        else if getDistanceSq vm st.startCoords e < tapMoveThreshold * tapMoveThreshold then
          .arr [⟨.touchTapEnd, tid, e⟩, ⟨.touchTap, tid, e⟩]
        else
          .arr [⟨.touchTapEnd, tid, e⟩]),
       { st with
          lastEndTouchEvent := e.timeStamp
          startCoords := ⟨0, 0⟩
          Time := ⟨0, 0⟩ }) := by
  have hs : isStartish t = false := by
    revert ht; cases t <;> simp [isStartish, isEndish]
  unfold extractEvents extractEventsAfterDedup
  rw [hs, ht]
  rw [if_neg (by decide : ¬ (false = true))]
  rw [if_pos (rfl : true = true)]
  rw [if_neg hd]
  simp [getDuration, getTime, apply_ite]

/-- A move-class event aborts an armed gesture (both origin coordinates
nonzero) at squared distance at least the squared threshold, clearing
only the origin; otherwise it is a no-op. -/
theorem extractEvents_move (vm : ViewportMetrics) (st : PluginState)
    (t : TopLevelType) (tid : String) (e : NativeEvent)
    (hs : isStartish t = false) (he : isEndish t = false) :
    extractEvents vm st t tid e =
      if st.startCoords.x ≠ 0 ∧ st.startCoords.y ≠ 0 then
        if getDistanceSq vm st.startCoords e ≥ tapMoveThreshold * tapMoveThreshold then
          (.single ⟨.touchTapEnd, tid, e⟩, { st with startCoords := ⟨0, 0⟩ })
        else
          (.null, st)
      else
        (.null, st) := by
  simp [extractEvents, extractEventsAfterDedup, hs, he]

/-! ## Claim theorems -/

/-- Claim C1: for every end-class raw event that passes the dedup
filter, if the duration (recorded end timestamp minus recorded start
timestamp) strictly exceeds `tapTimeThreshold` (2000 ms) the result is
exactly `[tap-end]` with no tap; otherwise the result always contains a
tap-end and additionally contains a tap exactly when the (squared)
distance from the recorded origin to the event's page coordinates is
strictly below the (squared) `tapMoveThreshold`, with tap-end preceding
tap in the returned pair. -/
theorem claim_endish_result (vm : ViewportMetrics) (st : PluginState)
    (t : TopLevelType) (tid : String) (e : NativeEvent)
    (ht : isEndish t = true)
    (hd : ¬ (st.lastEndTouchEvent ≠ 0 ∧
      e.timeStamp - st.lastEndTouchEvent < ignoreMouseThreshold)) :
    (extractEvents vm st t tid e).1 =
      if e.timeStamp - st.Time.start > tapTimeThreshold then
        .arr [⟨.touchTapEnd, tid, e⟩]
      else if getDistanceSq vm st.startCoords e < tapMoveThreshold * tapMoveThreshold then
        .arr [⟨.touchTapEnd, tid, e⟩, ⟨.touchTap, tid, e⟩]
      else
        .arr [⟨.touchTapEnd, tid, e⟩] := by
  rw [extractEvents_endish_accepted vm st t tid e ht hd]

/-- Claim C1 witness: start at (0,0) t=0 followed by end at (3,4) t=100
— duration 100 ≤ 2000 and squared distance 25 < 100 — yields
`[tap-end, tap]`. -/
theorem claim_endish_result_witness :
    (extractEvents ⟨0, 0⟩
      ((extractEvents ⟨0, 0⟩ initialState .topTouchStart "t"
          ⟨none, some 0, some 0, 0, 0, 0⟩).2)
      .topTouchEnd "t" ⟨none, some 3, some 4, 3, 4, 100⟩).1 =
      .arr [⟨.touchTapEnd, "t", ⟨none, some 3, some 4, 3, 4, 100⟩⟩,
            ⟨.touchTap, "t", ⟨none, some 3, some 4, 3, 4, 100⟩⟩] := by
  have h := claim_endish_result ⟨0, 0⟩
    ((extractEvents ⟨0, 0⟩ initialState .topTouchStart "t"
        ⟨none, some 0, some 0, 0, 0, 0⟩).2)
    .topTouchEnd "t" ⟨none, some 3, some 4, 3, 4, 100⟩ (by decide) (by decide)
  exact h.trans (by decide)

/-- Claim C2 counterexample: a start-class event at origin (0, 5) is
accepted (tap-start emitted) and never resolved, so a gesture is armed
in the claim's sense; yet a following move-class event at squared
distance 10000 ≥ 100 returns nothing and changes no state, because the
code's armed check `startCoords.x && startCoords.y` is falsy at x = 0. -/
theorem claim_move_abort_counterexample :
    (extractEvents ⟨0, 0⟩ initialState .topTouchStart "t"
        ⟨none, some 0, some 5, 0, 5, 1000⟩).1 =
      .single ⟨.touchTapStart, "t", ⟨none, some 0, some 5, 0, 5, 1000⟩⟩ ∧
    (extractEvents ⟨0, 0⟩ initialState .topTouchStart "t"
        ⟨none, some 0, some 5, 0, 5, 1000⟩).2 = ⟨⟨0, 5⟩, 1000, 0, ⟨1000, 0⟩⟩ ∧
    getDistanceSq ⟨0, 0⟩ ⟨0, 5⟩ ⟨none, some 100, some 5, 100, 5, 1050⟩ ≥
      tapMoveThreshold * tapMoveThreshold ∧
    extractEvents ⟨0, 0⟩ ⟨⟨0, 5⟩, 1000, 0, ⟨1000, 0⟩⟩ .topTouchMove "t"
        ⟨none, some 100, some 5, 100, 5, 1050⟩ =
      (.null, ⟨⟨0, 5⟩, 1000, 0, ⟨1000, 0⟩⟩) := by decide

/-- Claim C2 (amended): for every move-class raw event received while
the origin is armed in the code's sense (both recorded origin
coordinates nonzero): at squared distance at least the squared
threshold the origin is cleared and a single tap-end is returned; below
the threshold nothing is returned and the state is unchanged.  While
either origin coordinate is zero, a move-class event returns nothing
and changes no state. -/
theorem claim_move_event (vm : ViewportMetrics) (st : PluginState)
    (t : TopLevelType) (tid : String) (e : NativeEvent)
    (hs : isStartish t = false) (he : isEndish t = false) :
    (st.startCoords.x ≠ 0 → st.startCoords.y ≠ 0 →
      (getDistanceSq vm st.startCoords e ≥ tapMoveThreshold * tapMoveThreshold →
        extractEvents vm st t tid e =
          (.single ⟨.touchTapEnd, tid, e⟩, { st with startCoords := ⟨0, 0⟩ })) ∧
      (getDistanceSq vm st.startCoords e < tapMoveThreshold * tapMoveThreshold →
        extractEvents vm st t tid e = (.null, st))) ∧
    ((st.startCoords.x = 0 ∨ st.startCoords.y = 0) →
      extractEvents vm st t tid e = (.null, st)) := by
  rw [extractEvents_move vm st t tid e hs he]
  constructor
  · intro hx hy
    rw [if_pos ⟨hx, hy⟩]
    constructor
    · intro hge
      rw [if_pos hge]
    · intro hlt
      rw [if_neg (not_le.mpr hlt)]
  · intro h0
    rw [if_neg (by rintro ⟨hx, hy⟩; rcases h0 with h | h; exacts [hx h, hy h])]

/-- Claim C2 witness: armed at (5,5), a move to (100,100) — squared
distance 18050 ≥ 100 — aborts: single tap-end, origin cleared. -/
theorem claim_move_event_witness :
    extractEvents ⟨0, 0⟩ ⟨⟨5, 5⟩, 1000, 0, ⟨1000, 0⟩⟩ .topTouchMove "t"
        ⟨none, some 100, some 100, 100, 100, 1050⟩ =
      (.single ⟨.touchTapEnd, "t", ⟨none, some 100, some 100, 100, 100, 1050⟩⟩,
       ⟨⟨0, 0⟩, 1000, 0, ⟨1000, 0⟩⟩) :=
  (((claim_move_event ⟨0, 0⟩ ⟨⟨5, 5⟩, 1000, 0, ⟨1000, 0⟩⟩ .topTouchMove "t"
      ⟨none, some 100, some 100, 100, 100, 1050⟩ rfl rfl).1
    (by decide) (by decide)).1 (by decide)).trans (by decide)

/-- Claim C3 counterexample: a start-class event accepted at timestamp 0
records `lastStartTouchEvent = 0`, which is falsy, so a second
start-class event 100 ms later — within the 350 ms dedup window of the
last accepted start timestamp — is not dropped: it emits a tap-start
instead of returning nothing. -/
theorem claim_dedup_counterexample :
    (extractEvents ⟨0, 0⟩ initialState .topTouchStart "t"
        ⟨none, some 5, some 5, 5, 5, 0⟩).2 = ⟨⟨5, 5⟩, 0, 0, ⟨0, 0⟩⟩ ∧
    (100 : Int) - 0 < ignoreMouseThreshold ∧
    (extractEvents ⟨0, 0⟩ ⟨⟨5, 5⟩, 0, 0, ⟨0, 0⟩⟩ .topTouchStart "t"
        ⟨none, some 7, some 7, 7, 7, 100⟩).1 =
      .single ⟨.touchTapStart, "t", ⟨none, some 7, some 7, 7, 7, 100⟩⟩ := by decide

/-- Claim C3 (amended): a start-class event whose timestamp is within
`ignoreMouseThreshold` of a NONZERO last accepted start timestamp is
dropped with no state change (so a later start-class event outside the
window is processed normally); an accepted start-class event records its
timestamp as the last accepted start timestamp; and symmetrically for
end-class events against the last accepted end timestamp. -/
theorem claim_dedup_filter (vm : ViewportMetrics) (st : PluginState)
    (t : TopLevelType) (tid : String) (e : NativeEvent) :
    (isStartish t = true → st.lastStartTouchEvent ≠ 0 →
      e.timeStamp - st.lastStartTouchEvent < ignoreMouseThreshold →
      extractEvents vm st t tid e = (.null, st)) ∧
    (isStartish t = true →
      ¬ (st.lastStartTouchEvent ≠ 0 ∧
        e.timeStamp - st.lastStartTouchEvent < ignoreMouseThreshold) →
      (extractEvents vm st t tid e).2.lastStartTouchEvent = e.timeStamp) ∧
    (isEndish t = true → st.lastEndTouchEvent ≠ 0 →
      e.timeStamp - st.lastEndTouchEvent < ignoreMouseThreshold →
      extractEvents vm st t tid e = (.null, st)) ∧
    (isEndish t = true →
      ¬ (st.lastEndTouchEvent ≠ 0 ∧
        e.timeStamp - st.lastEndTouchEvent < ignoreMouseThreshold) →
      (extractEvents vm st t tid e).2.lastEndTouchEvent = e.timeStamp) := by
  refine ⟨fun ht h1 h2 => extractEvents_startish_dropped vm st t tid e ht ⟨h1, h2⟩,
          fun ht hd => ?_,
          fun ht h1 h2 => extractEvents_endish_dropped vm st t tid e ht ⟨h1, h2⟩,
          fun ht hd => ?_⟩
  · rw [extractEvents_startish_accepted vm st t tid e ht hd]
  · rw [extractEvents_endish_accepted vm st t tid e ht hd]

/-- Claim C3 witness: a start-class event at t = 1100, 100 ms after a
nonzero last accepted start timestamp of 1000, is dropped with no state
change. -/
theorem claim_dedup_filter_witness :
    extractEvents ⟨0, 0⟩ ⟨⟨5, 5⟩, 1000, 0, ⟨1000, 0⟩⟩ .topMouseDown "t"
        ⟨none, some 5, some 5, 5, 5, 1100⟩ =
      (.null, ⟨⟨5, 5⟩, 1000, 0, ⟨1000, 0⟩⟩) :=
  (claim_dedup_filter ⟨0, 0⟩ ⟨⟨5, 5⟩, 1000, 0, ⟨1000, 0⟩⟩ .topMouseDown "t"
      ⟨none, some 5, some 5, 5, 5, 1100⟩).1 rfl (by decide) (by decide)

/-- Claim C4 counterexample: from the initial state, a start at (5,5)
t=1000 is accepted; a move to (100,100) aborts the gesture and emits a
tap-end, but the resulting state still has `Time = {start: 1000, end: 0}`
— the clock fields are NOT cleared by a move-abort (the abort branch
returns before the trailing reset). -/
theorem claim_reset_counterexample :
    (extractEvents ⟨0, 0⟩ initialState .topTouchStart "t"
        ⟨none, some 5, some 5, 5, 5, 1000⟩).2 = ⟨⟨5, 5⟩, 1000, 0, ⟨1000, 0⟩⟩ ∧
    (extractEvents ⟨0, 0⟩ ⟨⟨5, 5⟩, 1000, 0, ⟨1000, 0⟩⟩ .topTouchMove "t"
        ⟨none, some 100, some 100, 100, 100, 1050⟩).1 =
      .single ⟨.touchTapEnd, "t", ⟨none, some 100, some 100, 100, 100, 1050⟩⟩ ∧
    (extractEvents ⟨0, 0⟩ ⟨⟨5, 5⟩, 1000, 0, ⟨1000, 0⟩⟩ .topTouchMove "t"
        ⟨none, some 100, some 100, 100, 100, 1050⟩).2.Time = ⟨1000, 0⟩ ∧
    (⟨1000, 0⟩ : TimeRecord) ≠ ⟨0, 0⟩ := by decide

/-- Claim C4 (amended): when a gesture resolves by an accepted end-class
event, both the origin and both clock fields are reset to zero; when it
resolves by a move-abort, only the origin is cleared — the clock fields
retain their previous values. -/
theorem claim_resolution_reset (vm : ViewportMetrics) (st : PluginState)
    (t : TopLevelType) (tid : String) (e : NativeEvent) :
    (isEndish t = true →
      ¬ (st.lastEndTouchEvent ≠ 0 ∧
        e.timeStamp - st.lastEndTouchEvent < ignoreMouseThreshold) →
      (extractEvents vm st t tid e).2.startCoords = ⟨0, 0⟩ ∧
      (extractEvents vm st t tid e).2.Time = ⟨0, 0⟩) ∧
    (isStartish t = false → isEndish t = false →
      st.startCoords.x ≠ 0 → st.startCoords.y ≠ 0 →
      getDistanceSq vm st.startCoords e ≥ tapMoveThreshold * tapMoveThreshold →
      (extractEvents vm st t tid e).2.startCoords = ⟨0, 0⟩ ∧
      (extractEvents vm st t tid e).2.Time = st.Time) := by
  constructor
  · intro ht hd
    rw [extractEvents_endish_accepted vm st t tid e ht hd]
    exact ⟨rfl, rfl⟩
  · intro hs he hx hy hge
    rw [extractEvents_move vm st t tid e hs he, if_pos ⟨hx, hy⟩, if_pos hge]
    exact ⟨rfl, rfl⟩

/-- Claim C4 witness: an accepted end-class event from an armed state
leaves the origin at (0,0) and the clock at {start: 0, end: 0}. -/
theorem claim_resolution_reset_witness :
    (extractEvents ⟨0, 0⟩ ⟨⟨5, 5⟩, 1000, 0, ⟨1000, 0⟩⟩ .topTouchEnd "t"
        ⟨none, some 5, some 5, 5, 5, 1100⟩).2.startCoords = ⟨0, 0⟩ ∧
    (extractEvents ⟨0, 0⟩ ⟨⟨5, 5⟩, 1000, 0, ⟨1000, 0⟩⟩ .topTouchEnd "t"
        ⟨none, some 5, some 5, 5, 5, 1100⟩).2.Time = ⟨0, 0⟩ :=
  (claim_resolution_reset ⟨0, 0⟩ ⟨⟨5, 5⟩, 1000, 0, ⟨1000, 0⟩⟩ .topTouchEnd "t"
      ⟨none, some 5, some 5, 5, 5, 1100⟩).1 rfl (by decide)

/-- Claim C5: every start-class raw event that passes the dedup filter
records its timestamp as the gesture start time, captures the event's
page-space (x, y) as the gesture origin (overwriting any prior state),
and returns exactly one tap-start semantic event. -/
theorem claim_start_event (vm : ViewportMetrics) (st : PluginState)
    (t : TopLevelType) (tid : String) (e : NativeEvent)
    (ht : isStartish t = true)
    (hd : ¬ (st.lastStartTouchEvent ≠ 0 ∧
      e.timeStamp - st.lastStartTouchEvent < ignoreMouseThreshold)) :
    extractEvents vm st t tid e =
      (.single ⟨.touchTapStart, tid, e⟩,
       { st with
          lastStartTouchEvent := e.timeStamp
          startCoords :=
            ⟨getAxisCoordOfEvent vm Axis.x e, getAxisCoordOfEvent vm Axis.y e⟩
          Time := { st.Time with start := getTime e } }) :=
  extractEvents_startish_accepted vm st t tid e ht hd

/-- Claim C5 witness: a start at (8,9) t=1500, 500 ms after the last
accepted start, re-arms the gesture and emits a single tap-start. -/
theorem claim_start_event_witness :
    extractEvents ⟨0, 0⟩ ⟨⟨2, 3⟩, 1000, 0, ⟨1000, 0⟩⟩ .topTouchStart "t"
        ⟨none, some 8, some 9, 8, 9, 1500⟩ =
      (.single ⟨.touchTapStart, "t", ⟨none, some 8, some 9, 8, 9, 1500⟩⟩,
       ⟨⟨8, 9⟩, 1500, 0, ⟨1500, 0⟩⟩) :=
  (claim_start_event ⟨0, 0⟩ ⟨⟨2, 3⟩, 1000, 0, ⟨1000, 0⟩⟩ .topTouchStart "t"
      ⟨none, some 8, some 9, 8, 9, 1500⟩ rfl (by decide)).trans (by decide)

/-- Claim C6: the threshold boundary is asymmetric exactly as stated —
a move-class event while armed at squared distance exactly the squared
`tapMoveThreshold` aborts the gesture (comparison is `≥`), while an
accepted in-time end-class event at squared distance exactly the squared
`tapMoveThreshold` emits only a tap-end, no tap (comparison is strict
`<`); both branches compare against the same `tapMoveThreshold`. -/
theorem claim_threshold_boundary (vm : ViewportMetrics) (st : PluginState)
    (t : TopLevelType) (tid : String) (e : NativeEvent) :
    (isStartish t = false → isEndish t = false →
      st.startCoords.x ≠ 0 → st.startCoords.y ≠ 0 →
      getDistanceSq vm st.startCoords e = tapMoveThreshold * tapMoveThreshold →
      (extractEvents vm st t tid e).1 = .single ⟨.touchTapEnd, tid, e⟩) ∧
    (isEndish t = true →
      ¬ (st.lastEndTouchEvent ≠ 0 ∧
        e.timeStamp - st.lastEndTouchEvent < ignoreMouseThreshold) →
      e.timeStamp - st.Time.start ≤ tapTimeThreshold →
      getDistanceSq vm st.startCoords e = tapMoveThreshold * tapMoveThreshold →
      (extractEvents vm st t tid e).1 = .arr [⟨.touchTapEnd, tid, e⟩]) := by
  constructor
  · intro hs he hx hy heq
    rw [extractEvents_move vm st t tid e hs he, if_pos ⟨hx, hy⟩,
      if_pos (le_of_eq heq.symm)]
  · intro ht hd hdur heq
    rw [extractEvents_endish_accepted vm st t tid e ht hd]
    have h1 : ¬ (tapTimeThreshold < e.timeStamp - st.Time.start) := not_lt.mpr hdur
    simp [h1, heq]

/-- Claim C6 witness: armed at (1,1), both a move and an end at (7,9)
are at squared distance 36 + 64 = 100 = 10²; the move aborts with a
single tap-end, the in-time end emits only `[tap-end]`. -/
theorem claim_threshold_boundary_witness :
    (extractEvents ⟨0, 0⟩ ⟨⟨1, 1⟩, 0, 0, ⟨0, 0⟩⟩ .topTouchMove "t"
        ⟨none, some 7, some 9, 7, 9, 200⟩).1 =
      .single ⟨.touchTapEnd, "t", ⟨none, some 7, some 9, 7, 9, 200⟩⟩ ∧
    (extractEvents ⟨0, 0⟩ ⟨⟨1, 1⟩, 0, 0, ⟨0, 0⟩⟩ .topTouchEnd "t"
        ⟨none, some 7, some 9, 7, 9, 500⟩).1 =
      .arr [⟨.touchTapEnd, "t", ⟨none, some 7, some 9, 7, 9, 500⟩⟩] :=
  ⟨(claim_threshold_boundary ⟨0, 0⟩ ⟨⟨1, 1⟩, 0, 0, ⟨0, 0⟩⟩ .topTouchMove "t"
      ⟨none, some 7, some 9, 7, 9, 200⟩).1 rfl rfl (by decide) (by decide) (by decide),
   (claim_threshold_boundary ⟨0, 0⟩ ⟨⟨1, 1⟩, 0, 0, ⟨0, 0⟩⟩ .topTouchEnd "t"
      ⟨none, some 7, some 9, 7, 9, 500⟩).2 rfl (by decide) (by decide) (by decide)⟩

/-- Claim C7: `getAxisCoordOfEvent` returns the touch point's page
coordinate when the event carries exactly one active touch point;
otherwise the event's own page-coordinate field when present; otherwise
the client coordinate plus the current viewport scroll offset — and the
same policy along both axes is what `getDistance` consumes. -/
theorem claim_axis_coord_policy (vm : ViewportMetrics) (e : NativeEvent) (c : Coords) :
    (∀ tch : Touch, e.singleTouch = some tch →
      getAxisCoordOfEvent vm Axis.x e = tch.pageX ∧
      getAxisCoordOfEvent vm Axis.y e = tch.pageY) ∧
    (e.singleTouch = none →
      (∀ p : Int, e.pageX = some p → getAxisCoordOfEvent vm Axis.x e = p) ∧
      (e.pageX = none →
        getAxisCoordOfEvent vm Axis.x e = e.clientX + vm.currentPageScrollLeft) ∧
      (∀ p : Int, e.pageY = some p → getAxisCoordOfEvent vm Axis.y e = p) ∧
      (e.pageY = none →
        getAxisCoordOfEvent vm Axis.y e = e.clientY + vm.currentPageScrollTop)) ∧
    getDistanceSq vm c e =
      (getAxisCoordOfEvent vm Axis.x e - c.x) * (getAxisCoordOfEvent vm Axis.x e - c.x) +
      (getAxisCoordOfEvent vm Axis.y e - c.y) * (getAxisCoordOfEvent vm Axis.y e - c.y) := by
  refine ⟨fun tch htch => ?_, fun hnone => ?_, rfl⟩
  · constructor <;> simp [getAxisCoordOfEvent, Axis.x, Axis.y, htch]
  · refine ⟨fun p hp => ?_, fun hpn => ?_, fun p hp => ?_, fun hpn => ?_⟩
    · simp [getAxisCoordOfEvent, Axis.x, hnone, hp]
    · simp [getAxisCoordOfEvent, Axis.x, hnone, hpn]
    · simp [getAxisCoordOfEvent, Axis.y, hnone, hp]
    · simp [getAxisCoordOfEvent, Axis.y, hnone, hpn]

/-- Claim C7 witness: an event with a single touch at (3,4) yields the
touch's page coordinates on both axes even though its own `pageX` field
says 50; without a touch and without a `pageY` field, the y coordinate
falls back to `clientY` plus the viewport scroll offset. -/
theorem claim_axis_coord_policy_witness :
    getAxisCoordOfEvent ⟨7, 11⟩ Axis.x ⟨some ⟨3, 4⟩, some 50, some 60, 1, 2, 0⟩ = 3 ∧
    getAxisCoordOfEvent ⟨7, 11⟩ Axis.y ⟨some ⟨3, 4⟩, some 50, some 60, 1, 2, 0⟩ = 4 ∧
    getAxisCoordOfEvent ⟨7, 11⟩ Axis.x ⟨none, some 50, none, 1, 2, 0⟩ = 50 ∧
    getAxisCoordOfEvent ⟨7, 11⟩ Axis.y ⟨none, some 50, none, 1, 2, 0⟩ = 2 + 11 :=
  ⟨((claim_axis_coord_policy ⟨7, 11⟩ ⟨some ⟨3, 4⟩, some 50, some 60, 1, 2, 0⟩ ⟨0, 0⟩).1
      ⟨3, 4⟩ rfl).1,
   ((claim_axis_coord_policy ⟨7, 11⟩ ⟨some ⟨3, 4⟩, some 50, some 60, 1, 2, 0⟩ ⟨0, 0⟩).1
      ⟨3, 4⟩ rfl).2,
   ((claim_axis_coord_policy ⟨7, 11⟩ ⟨none, some 50, none, 1, 2, 0⟩ ⟨0, 0⟩).2.1 rfl).1
      50 rfl,
   ((claim_axis_coord_policy ⟨7, 11⟩ ⟨none, some 50, none, 1, 2, 0⟩ ⟨0, 0⟩).2.1 rfl).2.2.2
      rfl⟩

/-- Claim C8 counterexample: when `EventPluginUtils.useTouchEvents` is
not set, the module-level `dependencies` variable is never assigned, so
the exposed event types carry `undefined` (`none`) — neither the touch
nor the mouse dependency list. -/
theorem claim_dependencies_counterexample :
    (eventTypes false false).touchTap.dependencies ≠ some touchDependencies ∧
    (eventTypes false false).touchTap.dependencies ≠ some mouseDependencies ∧
    (eventTypes false false).touchTap.dependencies = none := by decide

/-- Claim C8 (amended): all three exposed event types carry the shared
`dependencies` value; when `useTouchEvents` is set it is the touch-based
kinds on a touch-capable host and the mouse-based kinds otherwise, and
when `useTouchEvents` is not set it is left undefined (`none`). -/
theorem claim_dependencies_selection (u o : Bool) :
    (eventTypes u o).touchTap.dependencies = dependencies u o ∧
    (eventTypes u o).touchTapStart.dependencies = dependencies u o ∧
    (eventTypes u o).touchTapEnd.dependencies = dependencies u o ∧
    dependencies true o = some (if o then touchDependencies else mouseDependencies) ∧
    dependencies false o = none := by
  refine ⟨rfl, rfl, rfl, ?_, rfl⟩
  cases o <;> rfl

/-- Claim C9: the armed check for move-class events tests coordinate
truthiness (`startCoords.x && startCoords.y`) and resolution writes the
origin back as (0,0), so whenever the recorded origin has x = 0 or
y = 0, a move-class event returns nothing and changes no state no
matter how far it is from the origin. -/
theorem claim_zero_origin_move_noop (vm : ViewportMetrics) (st : PluginState)
    (t : TopLevelType) (tid : String) (e : NativeEvent)
    (hs : isStartish t = false) (he : isEndish t = false)
    (h0 : st.startCoords.x = 0 ∨ st.startCoords.y = 0) :
    extractEvents vm st t tid e = (.null, st) := by
  rw [extractEvents_move vm st t tid e hs he]
  rw [if_neg (by rintro ⟨hx, hy⟩; rcases h0 with h | h; exacts [hx h, hy h])]

/-- Claim C9 witness: with origin (0,5), a move to (100,5) — squared
distance 10000 — is a no-op. -/
theorem claim_zero_origin_move_noop_witness :
    extractEvents ⟨0, 0⟩ ⟨⟨0, 5⟩, 1000, 0, ⟨1000, 0⟩⟩ .topMouseMove "t"
        ⟨none, some 100, some 5, 100, 5, 1050⟩ =
      (.null, ⟨⟨0, 5⟩, 1000, 0, ⟨1000, 0⟩⟩) :=
  claim_zero_origin_move_noop ⟨0, 0⟩ ⟨⟨0, 5⟩, 1000, 0, ⟨1000, 0⟩⟩ .topMouseMove "t"
    ⟨none, some 100, some 5, 100, 5, 1050⟩ rfl rfl (Or.inl rfl)

/-- Claim C10 counterexample: a move-abort clears the origin to (0,0)
but NOT `Time.start`.  Start at (50,50) t=1000, move-abort at (200,200),
then an end-class event at (3,4) t=2500: with the claimed cleared start
time 0 its duration would be 2500 > 2000 and only `[tap-end]` would be
emitted, but the code computes duration 2500 − 1000 = 1500 and emits
`[tap-end, tap]`. -/
theorem claim_stray_end_counterexample :
    (extractEvents ⟨0, 0⟩ initialState .topTouchStart "t"
        ⟨none, some 50, some 50, 50, 50, 1000⟩).2 = ⟨⟨50, 50⟩, 1000, 0, ⟨1000, 0⟩⟩ ∧
    (extractEvents ⟨0, 0⟩ ⟨⟨50, 50⟩, 1000, 0, ⟨1000, 0⟩⟩ .topTouchMove "t"
        ⟨none, some 200, some 200, 200, 200, 1100⟩).2 =
      ⟨⟨0, 0⟩, 1000, 0, ⟨1000, 0⟩⟩ ∧
    (⟨⟨0, 0⟩, 1000, 0, ⟨1000, 0⟩⟩ : PluginState).Time.start ≠ 0 ∧
    (2500 : Int) - 0 > tapTimeThreshold ∧
    (extractEvents ⟨0, 0⟩ ⟨⟨0, 0⟩, 1000, 0, ⟨1000, 0⟩⟩ .topTouchEnd "t"
        ⟨none, some 3, some 4, 3, 4, 2500⟩).1 =
      .arr [⟨.touchTapEnd, "t", ⟨none, some 3, some 4, 3, 4, 2500⟩⟩,
            ⟨.touchTap, "t", ⟨none, some 3, some 4, 3, 4, 2500⟩⟩] ∧
    (extractEvents ⟨0, 0⟩ ⟨⟨0, 0⟩, 1000, 0, ⟨1000, 0⟩⟩ .topTouchEnd "t"
        ⟨none, some 3, some 4, 3, 4, 2500⟩).1 ≠
      .arr [⟨.touchTapEnd, "t", ⟨none, some 3, some 4, 3, 4, 2500⟩⟩] := by decide

/-- Claim C10 (amended): the end-class branch never checks whether a
gesture is armed: every end-class event that passes the dedup filter
emits an array headed by tap-end, with the tap decision computed against
the CURRENT recorded origin and start time (after resolution or with no
prior start the origin is (0,0); the start time is 0 with no prior
start, but after a move-abort it retains the aborted gesture's start
time).  In particular a stray end-class event arriving in the initial
state with page coordinates within `tapMoveThreshold` of (0,0) and
timestamp at most `tapTimeThreshold` also emits a tap. -/
theorem claim_endish_unarmed (vm : ViewportMetrics) (st : PluginState)
    (t : TopLevelType) (tid : String) (e : NativeEvent)
    (ht : isEndish t = true)
    (hd : ¬ (st.lastEndTouchEvent ≠ 0 ∧
      e.timeStamp - st.lastEndTouchEvent < ignoreMouseThreshold)) :
    (∃ rest, (extractEvents vm st t tid e).1 = .arr (⟨.touchTapEnd, tid, e⟩ :: rest)) ∧
    (st = initialState → e.timeStamp ≤ tapTimeThreshold →
      getDistanceSq vm ⟨0, 0⟩ e < tapMoveThreshold * tapMoveThreshold →
      (extractEvents vm st t tid e).1 =
        .arr [⟨.touchTapEnd, tid, e⟩, ⟨.touchTap, tid, e⟩]) := by
  rw [extractEvents_endish_accepted vm st t tid e ht hd]
  constructor
  · dsimp only
    split_ifs with h1 h2
    · exact ⟨[], rfl⟩
    · exact ⟨[⟨.touchTap, tid, e⟩], rfl⟩
    · exact ⟨[], rfl⟩
  · intro hst hts hdist
    subst hst
    have h1 : ¬ (tapTimeThreshold < e.timeStamp - initialState.Time.start) := by
      simpa [initialState] using not_lt.mpr hts
    have h2 : getDistanceSq vm initialState.startCoords e <
        tapMoveThreshold * tapMoveThreshold := by
      simpa [initialState] using hdist
    simp [h1, h2]

/-- Claim C10 witness: a stray end-class event at (3,4) t=100 arriving
in the initial state — no prior start ever — emits `[tap-end, tap]`. -/
theorem claim_endish_unarmed_witness :
    (extractEvents ⟨0, 0⟩ initialState .topTouchEnd "t"
        ⟨none, some 3, some 4, 3, 4, 100⟩).1 =
      .arr [⟨.touchTapEnd, "t", ⟨none, some 3, some 4, 3, 4, 100⟩⟩,
            ⟨.touchTap, "t", ⟨none, some 3, some 4, 3, 4, 100⟩⟩] :=
  (claim_endish_unarmed ⟨0, 0⟩ initialState .topTouchEnd "t"
      ⟨none, some 3, some 4, 3, 4, 100⟩ rfl (by decide)).2 rfl (by decide) (by decide)
